import Mathlib

/-!
Verification development for the conversational session manager of the
Banking-voice-assistant repository (`app/services/conversation_service.py`,
`app/services/nlu_service.py`, `app/routes/voice.py`,
`app/utils/validators.py`).

Python dictionaries are embedded as association lists with unique-key
semantics (first match wins on lookup, in-place overwrite on update);
timestamps are integers (seconds); `datetime.now()` is passed explicitly as
a `now` argument.
-/

set_option autoImplicit false

/-- Lookup in a Python dict embedded as an association list:
`d[k]` / `k in d`. Returns the value at the first matching key. -/
def dictGet? {α : Type} (d : List (String × α)) (k : String) : Option α :=
  match d with
  | [] => none
  | (k', v) :: rest => if k' == k then some v else dictGet? rest k

/-- `d[k] = v` on a Python dict: overwrite in place if the key is present
(keeping its position, as CPython does), else append the new pair. -/
def dictSet {α : Type} : List (String × α) → String → α → List (String × α)
  | [], k, v => [(k, v)]
  | (k', v') :: rest, k, v =>
    if k' == k then (k, v) :: rest else (k', v') :: dictSet rest k v

/-- `d.update(new)` on Python dicts: right-biased shallow union, key by key. -/
def dictUpdate {α : Type} (d new : List (String × α)) : List (String × α) :=
  new.foldl (fun acc p => dictSet acc p.1 p.2) d

/-- `del d[k]` on a Python dict. -/
def dictDel {α : Type} (d : List (String × α)) (k : String) :
    List (String × α) :=
  d.filter (fun p => !(p.1 == k))

/-- Values carried in the loosely typed parameter maps (`Dict[str, Any]`):
the JSON scalar shapes the NLU layer produces. -/
inductive PyVal where
  | vStr : String → PyVal
  | vInt : Int → PyVal
  | vBool : Bool → PyVal
  | vNone : PyVal
deriving DecidableEq

/-- Python truthiness of a `PyVal` (as tested by `not provided_params[param]`). -/
def PyVal.truthy : PyVal → Bool
  | .vStr s => !(s == "")
  | .vInt n => !(n == 0)
  | .vBool b => b
  | .vNone => false

/-! ## `app/utils/validators.py` -/

/-- `Validator.check_missing_params`: required parameters that are absent
from the provided map, or present with a falsy value. -/
def check_missing_params (required_params : List String)
    (provided_params : List (String × PyVal)) : List String :=
  required_params.filter (fun param =>
    match dictGet? provided_params param with
    | none => true
    | some v => !v.truthy)

/-- Deletion of every non-overlapping occurrence of `"+237"`, scanned left to
right: `phone.replace("+237", "")`. -/
def strip237 : List Char → List Char
  | '+' :: '2' :: '3' :: '7' :: rest => strip237 rest
  | c :: rest => c :: strip237 rest
  | [] => []

/-- `phone.replace(" ", "")`: removal of every space character. -/
def stripSpaces (l : List Char) : List Char :=
  l.filter (fun c => !(c == ' '))

/-- The body `6\d{8}` of the regex in `Validator.validate_phone_number`:
the character `6` followed by eight digits. `\d` is modelled as the ASCII
digits `0`-`9`; Python's `\d` on a `str` pattern (no `re.ASCII`) also
matches every character the interpreter's Unicode database classifies as a
decimal digit (category Nd), a set that varies with the database version,
so the model coincides with the source exactly on ASCII input and theorems
about the check are scoped to ASCII input. -/
def matchesCore : List Char → Bool
  | [] => false
  | c :: rest => c == '6' && rest.length == 8 && rest.all Char.isDigit

/-- Python `re.match(r'^6\d{8}$', s)` as a Boolean: the pattern is anchored
at both ends, and Python's `$` (without `re.MULTILINE`) also matches just
before a newline that ends the string. -/
def re_fullmatch_phone (l : List Char) : Bool :=
  matchesCore l || (l.getLast? == some '\n' && matchesCore l.dropLast)

/-- `Validator.validate_phone_number`: strip `"+237"` occurrences, then
spaces, then match `^6\d{8}$`. Via `matchesCore`, `\d` is the ASCII
digits, so this agrees with the source on every ASCII input; on non-ASCII
input the source additionally accepts Unicode category-Nd digits. -/
def validate_phone_number (phone : String) : Bool :=
  re_fullmatch_phone (stripSpaces (strip237 phone.data))

/-- The shape the spec sentence describes for the transformed string:
exactly nine decimal digits, the first being `6`. -/
def nineDigits6 (l : List Char) : Bool :=
  l.length == 9 && l.head? == some '6' && l.all Char.isDigit

/-- The phone check as the spec sentence words it: delete `"+237"`
occurrences and spaces, then require exactly nine digits starting with 6. -/
def phone_claim_spec (phone : String) : Bool :=
  nineDigits6 (stripSpaces (strip237 phone.data))

/-- The amended reading for ASCII input: as `phone_claim_spec`, except
that one trailing newline after the nine digits is also accepted (Python's
`$` anchor). -/
def phone_spec_amended (phone : String) : Bool :=
  let t := stripSpaces (strip237 phone.data)
  nineDigits6 t || (t.getLast? == some '\n' && nineDigits6 t.dropLast)

/-! ## `app/services/nlu_service.py` — computed status flags -/

/-- `is_complete = len(missing_params) == 0 and len(validation_errors) == 0`
in `NLUService.analyze_text`. -/
def is_complete (missing_params validation_errors : List String) : Bool :=
  missing_params.length == 0 && validation_errors.length == 0

/-- `execution_ready = is_complete and not result.get("security_alert", False)`
in `NLUService.analyze_text`. -/
def execution_ready (missing_params validation_errors : List String)
    (security_alert : Bool) : Bool :=
  is_complete missing_params validation_errors && !security_alert

/-! ## `app/services/conversation_service.py` — data model -/

/-- The `pending_info` record written by `ConversationService.add_pending_info`. -/
structure PendingInfo where
  intent : String
  collected_params : List (String × PyVal)
  missing_params : List String
  timestamp : Int
deriving DecidableEq

/-- One entry of `session["conversation_history"]`. -/
structure HistEntry where
  timestamp : Int
  data : List (String × PendingInfo)
deriving DecidableEq

/-- A session record. In the repository the generic `session["data"]` dict is
only ever written with the single key `"pending_info"` (by
`add_pending_info`), so its values are embedded as `PendingInfo`. -/
structure Session where
  user_id : String
  created_at : Int
  last_activity : Int
  data : List (String × PendingInfo)
  conversation_history : List HistEntry
deriving DecidableEq

/-- A durable per-user record on disk: either a well-formed session JSON
file, or one that `json.load` / field access fails on. -/
inductive DiskRecord where
  | valid : Session → DiskRecord
  | corrupt : DiskRecord
deriving DecidableEq

/-- The state of a `ConversationService` instance: the in-memory
`self.sessions` map, the files under `self.sessions_dir`, and
`self.session_timeout` (in seconds; the source sets 30 minutes). -/
structure ConvState where
  sessions : List (String × Session)
  disk : List (String × DiskRecord)
  session_timeout : Int
deriving DecidableEq

/-- `ConversationService._is_session_expired`:
`datetime.now() - last_activity > self.session_timeout`. -/
def is_session_expired (timeout now : Int) (s : Session) : Bool :=
  now - s.last_activity > timeout

/-- `ConversationService.clear_session`: drop the in-memory entry and unlink
the session file. -/
def clear_session (st : ConvState) (uid : String) : ConvState :=
  { st with sessions := dictDel st.sessions uid, disk := dictDel st.disk uid }

/-- `ConversationService._load_session_from_file`: a missing file or a
record the `try` block fails on yields `None`; a well-formed record is
returned (and cached in `self.sessions`) only when not expired; an expired
record yields `None` with no further action. -/
def load_session_from_file (st : ConvState) (now : Int) (uid : String) :
    Option Session × ConvState :=
  match dictGet? st.disk uid with
  | some (DiskRecord.valid s) =>
    if is_session_expired st.session_timeout now s then (none, st)
    else (some s, { st with sessions := dictSet st.sessions uid s })
  | some DiskRecord.corrupt => (none, st)
  | none => (none, st)

/-- `ConversationService.get_session`: the in-memory copy when present
(clearing and returning `None` if expired), otherwise the file load. -/
def get_session (st : ConvState) (now : Int) (uid : String) :
    Option Session × ConvState :=
  match dictGet? st.sessions uid with
  | some s =>
    if is_session_expired st.session_timeout now s then
      (none, clear_session st uid)
    else (some s, st)
  | none => load_session_from_file st now uid

/-- `ConversationService._create_new_session`. -/
def create_new_session (uid : String) (now : Int) : Session :=
  { user_id := uid
    created_at := now
    last_activity := now
    data := []
    conversation_history := [] }

/-- `ConversationService.create_or_update_session`: load or create the
session, stamp `last_activity`, `session["data"].update(data)`, append one
history entry, then store the result in memory and on disk. -/
def create_or_update_session (st : ConvState) (now : Int) (uid : String)
    (dta : List (String × PendingInfo)) : Session × ConvState :=
  let g := get_session st now uid
  let s := g.1.getD (create_new_session uid now)
  let s' : Session :=
    { s with
      last_activity := now
      data := dictUpdate s.data dta
      conversation_history :=
        s.conversation_history ++ [{ timestamp := now, data := dta }] }
  (s', { g.2 with
          sessions := dictSet g.2.sessions uid s'
          disk := dictSet g.2.disk uid (DiskRecord.valid s') })

/-- `ConversationService.add_pending_info`: wrap the arguments in a
`pending_info` record and pass `{"pending_info": ...}` to
`create_or_update_session`. -/
def add_pending_info (st : ConvState) (now : Int) (uid : String)
    (intent : String) (collected_params : List (String × PyVal))
    (missing_params : List String) : Session × ConvState :=
  create_or_update_session st now uid
    [("pending_info",
      { intent := intent
        collected_params := collected_params
        missing_params := missing_params
        timestamp := now })]

/-- `ConversationService.get_pending_info`. -/
def get_pending_info (st : ConvState) (now : Int) (uid : String) :
    Option PendingInfo × ConvState :=
  let g := get_session st now uid
  match g.1 with
  | some s => (dictGet? s.data "pending_info", g.2)
  | none => (none, g.2)

/-- `ConversationService.clear_pending_info`: delete the `pending_info` key
when present and save; the session object is aliased with the in-memory
copy, so the map and the file both hold the trimmed record afterwards. -/
def clear_pending_info (st : ConvState) (now : Int) (uid : String) :
    ConvState :=
  let g := get_session st now uid
  match g.1 with
  | some s =>
    if (dictGet? s.data "pending_info").isSome then
      let s' : Session := { s with data := dictDel s.data "pending_info" }
      { g.2 with
        sessions := dictSet g.2.sessions uid s'
        disk := dictSet g.2.disk uid (DiskRecord.valid s') }
    else g.2
  | none => g.2

/-- The pending intent currently stored for a user in the in-memory map. -/
def storedPending (st : ConvState) (uid : String) : Option PendingInfo :=
  (dictGet? st.sessions uid).bind (fun s => dictGet? s.data "pending_info")

/-! ## `app/routes/voice.py` — the `/voice/analyze` context save -/

/-- The fields of an NLU analysis result that the `/voice/analyze` route
reads when deciding whether to save context: `result["intent"]`,
`result.get("parameters", {})`, `validation.get("complete", False)` and
`validation.get("missing_params", [])`. -/
structure NLUTurn where
  intent : String
  parameters : List (String × PyVal)
  validation_complete : Bool
  missing_params : List String
deriving DecidableEq

/-- The context-saving step of `analyze_text` in `app/routes/voice.py`
(lines 108-116): when the turn's validation is not complete, record the
turn's intent, parameters and missing parameters as pending info. -/
def analyze_text_save_context (st : ConvState) (now : Int) (uid : String)
    (turn : NLUTurn) : ConvState :=
  if turn.validation_complete then st
  else (add_pending_info st now uid turn.intent turn.parameters
          turn.missing_params).2

/-! ## Concrete fixtures used by witnesses and counterexamples -/

/-- A pending transfer, one parameter collected, two still missing. -/
def pB : PendingInfo :=
  { intent := "faire_virement"
    collected_params := [("recipientPhone", PyVal.vStr "658835899")]
    missing_params := ["senderPhone", "amount"]
    timestamp := 50 }

/-- A live session for user `u` holding the pending transfer `pB`. -/
def sB : Session :=
  { user_id := "u"
    created_at := 50
    last_activity := 50
    data := [("pending_info", pB)]
    conversation_history := [] }

/-- Service state: `sB` in memory and on disk, 30-minute timeout. -/
def stB : ConvState :=
  { sessions := [("u", sB)]
    disk := [("u", DiskRecord.valid sB)]
    session_timeout := 1800 }

/-- A session for user `v` whose `last_activity` is far in the past. -/
def sExp : Session :=
  { user_id := "v"
    created_at := 0
    last_activity := 0
    data := []
    conversation_history := [] }

/-- Service state with the expired session only on disk. -/
def stC : ConvState :=
  { sessions := []
    disk := [("v", DiskRecord.valid sExp)]
    session_timeout := 1800 }

/-- An expired session for user `w`. -/
def sExp2 : Session :=
  { user_id := "w"
    created_at := 0
    last_activity := 0
    data := []
    conversation_history := [] }

/-- Service state with the expired session both in memory and on disk. -/
def stD : ConvState :=
  { sessions := [("w", sExp2)]
    disk := [("w", DiskRecord.valid sExp2)]
    session_timeout := 1800 }

/-- Service state whose only durable record, for user `c`, is corrupt. -/
def stE : ConvState :=
  { sessions := []
    disk := [("c", DiskRecord.corrupt)]
    session_timeout := 1800 }

/-! ## Library lemmas on the dictionary embedding -/

@[simp] theorem dictGet_set_self {α : Type} (d : List (String × α))
    (k : String) (v : α) : dictGet? (dictSet d k v) k = some v := by
  induction d with
  | nil => simp [dictSet, dictGet?]
  | cons p rest ih =>
    by_cases hp : p.1 == k
    · simp [dictSet, dictGet?, hp]
    · simpa [dictSet, dictGet?, hp] using ih

@[simp] theorem dictGet_del_self {α : Type} (d : List (String × α))
    (k : String) : dictGet? (dictDel d k) k = none := by
  induction d with
  | nil => rfl
  | cons p rest ih =>
    by_cases hp : p.1 == k
    · simpa [dictDel, hp] using ih
    · simpa [dictDel, dictGet?, hp] using ih

@[simp] theorem dictGet_update_single {α : Type} (d : List (String × α))
    (k : String) (v : α) : dictGet? (dictUpdate d [(k, v)]) k = some v := by
  simp [dictUpdate, List.foldl]

theorem matchesCore_eq_nineDigits6 (l : List Char) :
    matchesCore l = nineDigits6 l := by
  cases l with
  | nil => rfl
  | cons c rest =>
    rw [Bool.eq_iff_iff]
    simp only [matchesCore, nineDigits6, Bool.and_eq_true, beq_iff_eq,
      List.length_cons, List.head?_cons, Option.some_inj, List.all_cons]
    constructor
    · rintro ⟨⟨h6, hlen⟩, hall⟩
      subst h6
      exact ⟨⟨by omega, rfl⟩, by decide, hall⟩
    · rintro ⟨⟨hlen, h6⟩, _, hall⟩
      subst h6
      exact ⟨⟨rfl, by omega⟩, hall⟩

/-! ## Helper lemmas on the session operations -/

/-- After `add_pending_info`, the stored pending record is exactly the one
built from the call's arguments: `session["data"].update({"pending_info": p})`
replaces the `pending_info` entry wholesale. -/
theorem storedPending_add (st : ConvState) (now : Int) (uid intent : String)
    (params : List (String × PyVal)) (missing : List String) :
    storedPending ((add_pending_info st now uid intent params missing).2) uid
      = some { intent := intent
               collected_params := params
               missing_params := missing
               timestamp := now } := by
  simp [add_pending_info, create_or_update_session, storedPending]

/-- When `get_session` returns a session, that session is the in-memory
copy of the resulting state (it was either already cached or cached by the
file load). -/
theorem get_session_mem_of_some (st : ConvState) (now : Int) (uid : String)
    (s : Session) (h : (get_session st now uid).1 = some s) :
    dictGet? (get_session st now uid).2.sessions uid = some s := by
  cases hmem : dictGet? st.sessions uid with
  | some t =>
    simp only [get_session, hmem] at h ⊢
    by_cases hexp : is_session_expired st.session_timeout now t
    · simp [hexp] at h
    · simp only [hexp, if_false, Bool.false_eq_true] at h ⊢
      simp only [Option.some_inj] at h
      rw [← h]
      exact hmem
  | none =>
    simp only [get_session, hmem] at h ⊢
    cases hdisk : dictGet? st.disk uid with
    | some r =>
      cases r with
      | valid t =>
        simp only [load_session_from_file, hdisk] at h ⊢
        by_cases hexp : is_session_expired st.session_timeout now t
        · simp [hexp] at h
        · simp only [hexp, if_false, Bool.false_eq_true] at h ⊢
          simp only [Option.some_inj] at h
          rw [← h]
          exact dictGet_set_self st.sessions uid t
      | corrupt => simp [load_session_from_file, hdisk] at h
    | none => simp [load_session_from_file, hdisk] at h

/-! ## Claims -/

/-- Claim C1, counterexample: with a pending transfer holding
`recipientPhone`, a same-intent turn supplying only `amount` leaves a
stored pending record in which `recipientPhone` is gone — the old-only key
is not retained, so the update is not a right-biased union. -/
theorem add_pending_same_intent_counterexample :
    storedPending stB "u" = some pB ∧
    pB.intent = "faire_virement" ∧
    dictGet? pB.collected_params "recipientPhone"
      = some (PyVal.vStr "658835899") ∧
    Option.bind
      (storedPending
        ((add_pending_info stB 60 "u" "faire_virement"
            [("amount", PyVal.vStr "5000")] ["senderPhone"]).2) "u")
      (fun q => dictGet? q.collected_params "recipientPhone") = none := by
  decide

/-- Claim C1 (amended): for a session whose pending intent matches the new
turn's intent, the updated pending record is built from the new turn alone
— `session["data"].update` replaces the `pending_info` entry wholesale, so
the collected parameters equal exactly the new turn's parameters and
previously collected keys not re-supplied are dropped. -/
theorem add_pending_same_intent_replaces (st : ConvState) (now : Int)
    (uid : String) (intent : String) (params : List (String × PyVal))
    (missing : List String) (p0 : PendingInfo)
    (hpend : storedPending st uid = some p0)
    (hintent : p0.intent = intent) :
    storedPending ((add_pending_info st now uid intent params missing).2) uid
      = some { intent := intent
               collected_params := params
               missing_params := missing
               timestamp := now } :=
  storedPending_add st now uid intent params missing

/-- Witness for the amended C1 theorem at the concrete fixture. -/
theorem add_pending_same_intent_replaces_witness :
    storedPending ((add_pending_info stB 60 "u" "faire_virement"
        [("amount", PyVal.vStr "5000")] ["senderPhone"]).2) "u"
      = some { intent := "faire_virement"
               collected_params := [("amount", PyVal.vStr "5000")]
               missing_params := ["senderPhone"]
               timestamp := 60 } :=
  add_pending_same_intent_replaces stB 60 "u" "faire_virement"
    [("amount", PyVal.vStr "5000")] ["senderPhone"] pB (by decide) (by decide)

/-- Claim C2, counterexample: an `"unknown"`-intent turn whose validation
is not complete overwrites the stored pending transfer — the route has no
special case for `"unknown"`, so the pending intent is clobbered. -/
theorem unknown_turn_counterexample :
    storedPending stB "u" = some pB ∧
    storedPending (analyze_text_save_context stB 60 "u"
        { intent := "unknown"
          parameters := []
          validation_complete := false
          missing_params := [] }) "u"
      = some { intent := "unknown"
               collected_params := []
               missing_params := []
               timestamp := (60 : Int) } ∧
    pB.intent ≠ "unknown" := by
  decide

/-- Claim C2 (amended): a turn classified `"unknown"` leaves the stored
pending intent untouched only when its validation reports complete (the
route then saves nothing); when validation is incomplete the route
overwrites the pending intent with a fresh `"unknown"` pending record. -/
theorem unknown_turn_pending_effect (st : ConvState) (now : Int)
    (uid : String) (turn : NLUTurn) (hintent : turn.intent = "unknown") :
    (turn.validation_complete = true →
      analyze_text_save_context st now uid turn = st) ∧
    (turn.validation_complete = false →
      storedPending (analyze_text_save_context st now uid turn) uid
        = some { intent := "unknown"
                 collected_params := turn.parameters
                 missing_params := turn.missing_params
                 timestamp := now }) := by
  constructor
  · intro hc
    simp [analyze_text_save_context, hc]
  · intro hc
    rw [analyze_text_save_context, if_neg (by simp [hc]), ← hintent]
    exact storedPending_add st now uid turn.intent turn.parameters
      turn.missing_params

/-- Witness for the amended C2 theorem at two concrete turns. -/
theorem unknown_turn_pending_effect_witness :
    analyze_text_save_context stB 60 "u"
        { intent := "unknown"
          parameters := [("x", PyVal.vStr "1")]
          validation_complete := true
          missing_params := [] } = stB ∧
    storedPending (analyze_text_save_context stB 70 "u"
        { intent := "unknown"
          parameters := [("x", PyVal.vStr "1")]
          validation_complete := false
          missing_params := ["y"] }) "u"
      = some { intent := "unknown"
               collected_params := [("x", PyVal.vStr "1")]
               missing_params := ["y"]
               timestamp := 70 } :=
  ⟨(unknown_turn_pending_effect stB 60 "u"
      { intent := "unknown"
        parameters := [("x", PyVal.vStr "1")]
        validation_complete := true
        missing_params := [] } rfl).1 rfl,
   (unknown_turn_pending_effect stB 70 "u"
      { intent := "unknown"
        parameters := [("x", PyVal.vStr "1")]
        validation_complete := false
        missing_params := ["y"] } rfl).2 rfl⟩

/-- Claim C3, counterexample: an expired session present only on disk is
read as `None`, but its durable record is still there afterwards — the
deletion the claim requires does not happen on the file-load path. -/
theorem expired_read_counterexample :
    is_session_expired stC.session_timeout 1801 sExp = true ∧
    (get_session stC 1801 "v").1 = none ∧
    dictGet? (get_session stC 1801 "v").2.disk "v"
      = some (DiskRecord.valid sExp) := by
  decide

/-- Claim C3 (amended): a read of an expired session always returns `None`;
when the expired session is resident in memory both the in-memory and the
durable copy are deleted, but an expired record found only on disk is left
in place (the state is unchanged). -/
theorem expired_read_effect (st : ConvState) (now : Int) (uid : String) :
    (∀ s, dictGet? st.sessions uid = some s →
      is_session_expired st.session_timeout now s = true →
      (get_session st now uid).1 = none ∧
      dictGet? (get_session st now uid).2.sessions uid = none ∧
      dictGet? (get_session st now uid).2.disk uid = none) ∧
    (dictGet? st.sessions uid = none →
      ∀ s, dictGet? st.disk uid = some (DiskRecord.valid s) →
      is_session_expired st.session_timeout now s = true →
      (get_session st now uid).1 = none ∧ (get_session st now uid).2 = st) := by
  constructor
  · intro s hs hexp
    simp [get_session, hs, hexp, clear_session]
  · intro hmem s hdisk hexp
    simp [get_session, load_session_from_file, hmem, hdisk, hexp]

/-- Witness for the amended C3 theorem: the in-memory expired case and the
disk-only expired case at concrete fixtures. -/
theorem expired_read_effect_witness :
    ((get_session stD 1801 "w").1 = none ∧
      dictGet? (get_session stD 1801 "w").2.sessions "w" = none ∧
      dictGet? (get_session stD 1801 "w").2.disk "w" = none) ∧
    ((get_session stC 1801 "v").1 = none ∧
      (get_session stC 1801 "v").2 = stC) :=
  ⟨(expired_read_effect stD 1801 "w").1 sExp2 (by decide) (by decide),
   (expired_read_effect stC 1801 "v").2 (by decide) sExp (by decide)
     (by decide)⟩

/-- Claim C4: `is_complete` holds exactly when both the missing-parameters
list and the validation-errors list are empty, `execution_ready` holds
exactly when `is_complete` holds and there is no security alert; in
particular a complete turn with a security alert is complete but not
execution-ready. -/
theorem status_flags (m e : List String) (a : Bool) :
    (is_complete m e = true ↔ m = [] ∧ e = []) ∧
    (execution_ready m e a = true ↔ is_complete m e = true ∧ a = false) ∧
    (m = [] → e = [] → a = true →
      is_complete m e = true ∧ execution_ready m e a = false) := by
  refine ⟨?_, ?_, ?_⟩
  · simp [is_complete, List.length_eq_zero]
  · simp [execution_ready, Bool.not_eq_true']
  · rintro rfl rfl rfl
    decide

/-- Witness for C4 at the concrete input of the claim's particular case. -/
theorem status_flags_witness :
    is_complete [] [] = true ∧ execution_ready [] [] true = false :=
  (status_flags [] [] true).2.2 rfl rfl rfl

/-- Claim C5: a name is in `check_missing_params required provided` exactly
when it is required and either absent from the provided map or mapped to a
falsy value. -/
theorem check_missing_params_spec (required_params : List String)
    (provided_params : List (String × PyVal)) (param : String) :
    param ∈ check_missing_params required_params provided_params ↔
      param ∈ required_params ∧
        (dictGet? provided_params param = none ∨
          ∃ v, dictGet? provided_params param = some v ∧
            v.truthy = false) := by
  rw [check_missing_params, List.mem_filter]
  cases h : dictGet? provided_params param with
  | none => simp [h]
  | some v => simp [h, Bool.not_eq_true']

/-- Witness for C5 at a concrete required list and empty provided map. -/
theorem check_missing_params_spec_witness :
    "amount" ∈ check_missing_params ["amount"] [] :=
  (check_missing_params_spec ["amount"] [] "amount").mpr
    ⟨by decide, Or.inl (by decide)⟩

/-- Claim C6: when the new turn's intent differs from the pending intent's
name, the resulting pending record is built from the new turn alone: its
collected parameters equal exactly the new turn's parameters, so no key
collected under the previous intent survives unless the new turn supplies
it. -/
theorem topic_switch_fresh (st : ConvState) (now : Int) (uid : String)
    (intent : String) (params : List (String × PyVal))
    (missing : List String) (p0 : PendingInfo)
    (hpend : storedPending st uid = some p0)
    (hintent : p0.intent ≠ intent) :
    storedPending ((add_pending_info st now uid intent params missing).2) uid
      = some { intent := intent
               collected_params := params
               missing_params := missing
               timestamp := now } :=
  storedPending_add st now uid intent params missing

/-- Witness for C6: switching from the pending transfer to a balance
query; `recipientPhone` is gone from the new pending record. -/
theorem topic_switch_fresh_witness :
    storedPending ((add_pending_info stB 60 "u" "consulter_solde"
        [("phoneNumber", PyVal.vStr "653112616")] []).2) "u"
      = some { intent := "consulter_solde"
               collected_params := [("phoneNumber", PyVal.vStr "653112616")]
               missing_params := []
               timestamp := 60 } :=
  topic_switch_fresh stB 60 "u" "consulter_solde"
    [("phoneNumber", PyVal.vStr "653112616")] [] pB (by decide) (by decide)

/-- Claim C7: recording the same NLU result twice in succession against a
session with a matching pending intent leaves the same collected parameters
and missing parameters as recording it once. -/
theorem merge_idempotent (st : ConvState) (now1 now2 : Int) (uid : String)
    (intent : String) (params : List (String × PyVal))
    (missing : List String) (p0 : PendingInfo)
    (hpend : storedPending st uid = some p0)
    (hintent : p0.intent = intent) :
    (storedPending ((add_pending_info
        ((add_pending_info st now1 uid intent params missing).2)
        now2 uid intent params missing).2) uid).map
      (fun q => (q.collected_params, q.missing_params))
    = (storedPending
        ((add_pending_info st now1 uid intent params missing).2) uid).map
      (fun q => (q.collected_params, q.missing_params)) := by
  rw [storedPending_add, storedPending_add]
  rfl

/-- Witness for C7 at the concrete fixture. -/
theorem merge_idempotent_witness :
    (storedPending ((add_pending_info
        ((add_pending_info stB 60 "u" "faire_virement"
            [("amount", PyVal.vStr "5000")] ["senderPhone"]).2)
        70 "u" "faire_virement" [("amount", PyVal.vStr "5000")]
        ["senderPhone"]).2) "u").map
      (fun q => (q.collected_params, q.missing_params))
    = (storedPending ((add_pending_info stB 60 "u" "faire_virement"
        [("amount", PyVal.vStr "5000")] ["senderPhone"]).2) "u").map
      (fun q => (q.collected_params, q.missing_params)) :=
  merge_idempotent stB 60 70 "u" "faire_virement"
    [("amount", PyVal.vStr "5000")] ["senderPhone"] pB (by decide) (by decide)

/-- Claim C8: a user whose durable record is missing or corrupt (and who
has no in-memory session) reads as `None` from both `get_session` and
`get_pending_info`; the failure is swallowed, not propagated. -/
theorem missing_or_corrupt_is_notfound (st : ConvState) (now : Int)
    (uid : String) (hmem : dictGet? st.sessions uid = none)
    (hdisk : dictGet? st.disk uid = none ∨
      dictGet? st.disk uid = some DiskRecord.corrupt) :
    (get_session st now uid).1 = none ∧
    (get_pending_info st now uid).1 = none := by
  have h1 : (get_session st now uid).1 = none := by
    rcases hdisk with h | h <;>
      simp [get_session, load_session_from_file, hmem, h]
  refine ⟨h1, ?_⟩
  simp [get_pending_info, h1]

/-- Witness for C8 at the state whose only record is corrupt. -/
theorem missing_or_corrupt_is_notfound_witness :
    (get_session stE 100 "c").1 = none ∧
    (get_pending_info stE 100 "c").1 = none :=
  missing_or_corrupt_is_notfound stE 100 "c" (by decide) (Or.inr (by decide))

/-- Claim C9: for a live session, `create_or_update_session` (the path of
every turn update and pending-info write) extends the history by exactly
one entry at the end, and `clear_pending_info` leaves the stored history
unchanged. -/
theorem history_append_only (st : ConvState) (now : Int) (uid : String)
    (dta : List (String × PendingInfo)) (s : Session)
    (hlive : (get_session st now uid).1 = some s) :
    (create_or_update_session st now uid dta).1.conversation_history
      = s.conversation_history ++ [{ timestamp := now, data := dta }] ∧
    ∀ t, dictGet? (clear_pending_info st now uid).sessions uid = some t →
      t.conversation_history = s.conversation_history := by
  have hmem := get_session_mem_of_some st now uid s hlive
  constructor
  · simp [create_or_update_session, hlive]
  · intro t ht
    simp only [clear_pending_info, hlive] at ht
    by_cases hp : (dictGet? s.data "pending_info").isSome
    · rw [if_pos hp] at ht
      simp only [dictGet_set_self, Option.some_inj] at ht
      rw [← ht]
    · rw [if_neg hp] at ht
      rw [hmem] at ht
      cases ht
      rfl

/-- Witness for C9 at the concrete fixture. -/
theorem history_append_only_witness :
    (create_or_update_session stB 60 "u" []).1.conversation_history
      = sB.conversation_history ++ [{ timestamp := 60, data := [] }] ∧
    (({ user_id := "u"
        created_at := 50
        last_activity := 50
        data := []
        conversation_history := [] } : Session).conversation_history
      = sB.conversation_history) :=
  ⟨(history_append_only stB 60 "u" [] sB (by decide)).1,
   (history_append_only stB 60 "u" [] sB (by decide)).2
     { user_id := "u"
       created_at := 50
       last_activity := 50
       data := []
       conversation_history := [] } (by decide)⟩

/-- Claim C10, counterexample: Python's `$` also matches just before a
trailing newline, so `"612345678\n"` passes `validate_phone_number` even
though after deleting `"+237"` and spaces it is not nine digits. -/
theorem validate_phone_number_counterexample :
    validate_phone_number "612345678\n" = true ∧
    phone_claim_spec "612345678\n" = false := by
  decide

/-- Claim C10 (amended): on input made of ASCII characters — the domain on
which Python's Unicode-aware `\d` coincides with the ASCII digits, and on
which "decimal digit" is unambiguous — the phone check accepts exactly the
strings that, after deleting `"+237"` occurrences and spaces, are nine
decimal digits starting with `6`, optionally followed by one trailing
newline (Python's `$` anchor). On non-ASCII input the source's `\d` also
accepts the interpreter's Unicode category-Nd digits, a set that depends
on the Unicode database version, so no version-independent statement is
made there. -/
theorem validate_phone_number_amended (phone : String)
    (hascii : ∀ c ∈ phone.data, c.toNat < 128) :
    validate_phone_number phone = phone_spec_amended phone := by
  unfold validate_phone_number phone_spec_amended re_fullmatch_phone
  rw [matchesCore_eq_nineDigits6, matchesCore_eq_nineDigits6]

/-- Witness for the amended C10 theorem: an ASCII input written in the
source's accepted format, with country code and spaces. -/
theorem validate_phone_number_amended_witness :
    validate_phone_number "+237 653 112 616"
      = phone_spec_amended "+237 653 112 616" :=
  validate_phone_number_amended "+237 653 112 616" (by decide)
